import Mathlib

/-!
# Verification of the immichFrame slideshow core

Shallow embedding of the slideshow engine found in `src/hooks/useImmich.ts`,
`src/hooks/useSlideshow.ts` and `src/app/page.tsx`, together with proofs and
refutations of the specification's claims about it.

Conventions of the embedding:
* network calls (`fetch` of a page of metadata, `fetch` of an asset's bytes)
  are abstracted as oracles supplied as parameters;
* `localStorage` for the `immich-view-taken-before` key is an explicit
  `Option String` value threaded through the functions that read/write it;
* React state updates become explicit record updates on a state structure;
  asynchronous completions are modelled as separate events of a step
  function, with one event per suspension point that matters to the claims;
* blob-URL creation (`URL.createObjectURL`) and revocation
  (`URL.revokeObjectURL` via `revokeAssetUrls`) are recorded in logs so that
  the resource-lifecycle claims can be stated by counting.
-/

namespace ImmichFrame

/-- Media kind of a catalog asset (`ImmichAsset.type` in `src/lib/types.ts`). -/
inductive MediaType where
  | IMAGE
  | VIDEO
deriving DecidableEq, Repr

/-- The fields of an `ImmichAsset` descriptor used by the slideshow core
(`src/lib/types.ts`): the id, the media kind and the capture timestamp
(`fileCreatedAt`, an ISO string, possibly absent). -/
structure ImmichAsset where
  id : String
  type : MediaType
  fileCreatedAt : Option String := none
deriving DecidableEq, Repr

/-- A resolved playable resource (`MediaAsset` in `src/lib/types.ts`):
the descriptor plus the primary blob URL (`url`) and the preview blob URL
(`previewUrl`) produced by `getAssetWithRetry` in `src/hooks/useImmich.ts`. -/
structure MediaAsset where
  id : String
  type : MediaType
  url : String
  previewUrl : String
  asset : ImmichAsset
deriving DecidableEq, Repr

/-! ## Asset byte fetches (`getAssetUrl`, `src/hooks/useImmich.ts` lines 83-121) -/

/-- The asset-bytes fetch capability: `apiKey` is whether the API key is
configured (`if (!API_KEY) return null` guard), and `fetch u` is the outcome
of `fetch(u)` followed by `URL.createObjectURL`: `some blobUrl` on a 2xx
response, `none` on timeout, network error or non-success status. -/
structure FetchEnv where
  apiKey : Bool
  fetch : String → Option String

/-- Request URL built by `getAssetUrl` for the `original` variant. -/
def originalRequestUrl (a : ImmichAsset) : String :=
  "/api/immich/assets/" ++ a.id ++ "/original"

/-- Request URL built by `getAssetUrl` for the `preview` variant. -/
def previewRequestUrl (a : ImmichAsset) : String :=
  "/api/immich/assets/" ++ a.id ++ "/thumbnail?size=preview"

/-- Which variant `getAssetUrl` is asked for (`type: 'original' | 'preview'`). -/
inductive UrlKind where
  | original
  | preview
deriving DecidableEq, Repr

/-- Embedding of `getAssetUrl(asset, type)` (`src/hooks/useImmich.ts` lines 83-121):
returns the blob URL on success and `none` on failure, together with the list
of request URLs actually issued (empty when the API key guard fires).  Note
both the VIDEO and the IMAGE branches of the source build the same URL for a
given variant. -/
def getAssetUrl (env : FetchEnv) (a : ImmichAsset) (k : UrlKind) :
    Option String × List String :=
  if !env.apiKey then (none, [])
  else
    let u := match k with
      | .original => originalRequestUrl a
      | .preview => previewRequestUrl a
    (env.fetch u, [u])

/-! ## One resolve attempt (body of `getAssetWithRetry`, lines 123-145) -/

/-- Outcome of one resolve attempt: the result, the request URLs issued, and
the blob URLs created (each successful `getAssetUrl` appends its blob URL to
the `urlsToRevoke` tracking list; the source performs no
`URL.revokeObjectURL` anywhere on this path, so no revocation log is
produced here). -/
structure AttemptResult where
  result : Option MediaAsset
  requested : List String
  created : List String
deriving DecidableEq, Repr

/-- One attempt of `getAssetWithRetry` (`src/hooks/useImmich.ts` lines
124-145).  For IMAGE: a single `getAssetUrl(asset, 'preview')` call, and
`originalUrl = previewUrl` ("Use preview for both to ensure compatibility").
For VIDEO: `getAssetUrl(asset,'original')` and `getAssetUrl(asset,'preview')`
via `Promise.all` (both requests are issued regardless of the other's
outcome).  The attempt succeeds iff `originalUrl && previewUrl`. -/
def resolveAttempt (env : FetchEnv) (a : ImmichAsset) : AttemptResult :=
  match a.type with
  | .IMAGE =>
    let (p, req) := getAssetUrl env a .preview
    match p with
    | some pu =>
      { result := some { id := a.id, type := a.type, url := pu, previewUrl := pu, asset := a }
        requested := req
        created := [pu] }
    | none => { result := none, requested := req, created := [] }
  | .VIDEO =>
    let (o, reqO) := getAssetUrl env a .original
    let (p, reqP) := getAssetUrl env a .preview
    { result :=
        match o, p with
        | some ou, some pu =>
          some { id := a.id, type := a.type, url := ou, previewUrl := pu, asset := a }
        | _, _ => none
      requested := reqO ++ reqP
      created := o.toList ++ p.toList }

/-! ## Bounded retry (`getAssetWithRetry`, lines 123-162) -/

/-- The retry delay constant (`RETRY_DELAY = 5000` in `src/hooks/useImmich.ts`). -/
def RETRY_DELAY : ℕ := 5000

/-- Aggregate outcome of `getAssetWithRetry`: final result, number of resolve
attempts performed, the delays awaited between attempts, and all blob URLs
created along the way (partial halves of failed attempts included). -/
structure RetryResult where
  result : Option MediaAsset
  attempts : ℕ
  delays : List ℕ
  created : List String
deriving DecidableEq, Repr

/-- Embedding of `getAssetWithRetry(asset, retries)` (`src/hooks/useImmich.ts` lines
123-162): try one attempt; on failure, if `retries > 0`, await `RETRY_DELAY`
and recurse with `retries - 1`; otherwise return `null`.  The environment is
indexed by the attempt number so that each attempt may see a different
network outcome. -/
def getAssetWithRetryGo (envs : ℕ → FetchEnv) (a : ImmichAsset) :
    ℕ → ℕ → RetryResult
  | idx, 0 =>
    let r := resolveAttempt (envs idx) a
    { result := r.result, attempts := 1, delays := [], created := r.created }
  | idx, retries + 1 =>
    let r := resolveAttempt (envs idx) a
    match r.result with
    | some m => { result := some m, attempts := 1, delays := [], created := r.created }
    | none =>
      let rest := getAssetWithRetryGo envs a (idx + 1) retries
      { result := rest.result
        attempts := 1 + rest.attempts
        delays := RETRY_DELAY :: rest.delays
        created := r.created ++ rest.created }

/-- The function `getAssetWithRetry` entered at attempt index 0 with retry budget
`retries` (the source's default is `retries = 1`). -/
def getAssetWithRetry (envs : ℕ → FetchEnv) (a : ImmichAsset) (retries : ℕ) :
    RetryResult :=
  getAssetWithRetryGo envs a 0 retries

/-! ## `preloadNextAsset` (`src/hooks/useSlideshow.ts` lines 47-65) -/

/-- Embedding of `preloadNextAsset(currentPlaylist)`: shift the first descriptor; if the
playlist is empty set `nextMedia` to `null`; otherwise resolve it via
`getAssetWithRetry` (abstracted here as `resolver`); on failure recursively
try the next one.  Returns the pair (value stored into `nextMedia`, updated
playlist returned to the caller).  A descriptor that fails is dropped and
never re-queued. -/
def preloadNextAsset (resolver : ImmichAsset → Option MediaAsset) :
    List ImmichAsset → Option MediaAsset × List ImmichAsset
  | [] => (none, [])
  | a :: rest =>
    match resolver a with
    | some m => (some m, rest)
    | none => preloadNextAsset resolver rest

/-! ## Catalog metadata fetch (`fetchAssets`, `src/hooks/useImmich.ts` lines 30-81) -/

/-- The `search/metadata` capability: `pages c` is the outcome of one POST to
`/api/immich/search/metadata` with `takenBefore := c` (omitted when `c` is
`none`): `some items` is a successful response with its (possibly empty)
`data.assets.items`, `none` is a transport failure / non-ok status (the
source's `catch` path). -/
structure Catalog where
  pages : Option String → Option (List ImmichAsset)

/-- Outcome of `fetchAssets`: the returned value (`none` models the source's
`null`), the persisted `immich-view-taken-before` value after the call, and
the log of cursors with which `search/metadata` was queried, in order. -/
structure FetchAssetsResult where
  result : Option (List ImmichAsset)
  store : Option String
  queried : List (Option String)
deriving DecidableEq, Repr

/-- Embedding of `fetchAssets()` (`src/hooks/useImmich.ts` lines 30-81).  It takes no
cursor parameter: it reads `takenBefore` from `localStorage` itself (here the
explicit `store` argument).  On a config error, returns `null` without
querying.  On a transport failure, returns `null`.  When the page is empty
and `takenBefore` was set, it removes the stored key and calls itself again
("Reached end of timeline, looping back to the beginning"); that inner call
runs with the store cleared, so it cannot recurse further and is written out
here as a single unfolding. -/
def fetchAssets (configError : Option String) (cat : Catalog)
    (store : Option String) : FetchAssetsResult :=
  if configError.isSome then
    { result := none, store := store, queried := [] }
  else
    match cat.pages store with
    | none => { result := none, store := store, queried := [store] }
    | some items =>
      if items.isEmpty && store.isSome then
        -- localStorage.removeItem, then `return fetchAssets()`; the inner
        -- call sees `takenBefore = null` and therefore never recurses.
        match cat.pages none with
        | none => { result := none, store := none, queried := [store, none] }
        | some items2 =>
          { result := some items2, store := none, queried := [store, none] }
      else
        { result := some items, store := store, queried := [store] }

/-- The call sites in `src/hooks/useSlideshow.ts` (line 117) invoke
`fetchAssets(takenBefore)` with an argument, but the function declares no
parameter; in JavaScript the extra argument is simply dropped.  This wrapper
embeds that call shape. -/
def fetchAssetsCalledWith (configError : Option String) (cat : Catalog)
    (arg : Option String) (store : Option String) : FetchAssetsResult :=
  fetchAssets configError cat store

/-! ## `performFetch` (`src/hooks/useSlideshow.ts` lines 110-146) -/

/-- Net effect of one `performFetch` run on the slideshow state: the error
banner value, whether `isLoading` was forced to `false`, the value of
`isFetching` once the run (including any scheduled delayed retry) settles,
whether a delayed re-trigger of the fetch was scheduled (`await delay(5000);
setIsFetching(true)`), the assets appended to the playlist, and the persisted
cursor afterwards. -/
structure PerformFetchResult where
  error : Option String
  loadingCleared : Bool
  isFetchingAfter : Bool
  retryScheduled : Bool
  appended : List ImmichAsset
  store : Option String
deriving DecidableEq, Repr

/-- The terminal branch of `performFetch` for an empty result with no stored
cursor: `setError("No photos found...")`, `setIsLoading(false)`,
`setIsFetching(false)`; no retry is scheduled. -/
def noMediaResult (store : Option String) : PerformFetchResult :=
  { error := some "No photos found matching your filters."
    loadingCleared := true
    isFetchingAfter := false
    retryScheduled := false
    appended := []
    store := store }

/-- The transport-failure branch of `performFetch`: `setError("Failed to
connect...")`, `setIsFetching(false)`, then after a 5s delay
`setIsFetching(true)` again. -/
def connectFailedResult (store : Option String) : PerformFetchResult :=
  { error := some "Failed to connect to Immich server."
    loadingCleared := false
    isFetchingAfter := true
    retryScheduled := true
    appended := []
    store := store }

/-- Embedding of `performFetch` (`src/hooks/useSlideshow.ts` lines 113-143).  Reads
`takenBefore` from storage, calls `fetchAssets(takenBefore)` (argument
ignored by the callee), then: `null` result ⇒ error banner and delayed
retry; empty result with `takenBefore` set ⇒ remove the key and run
`performFetch` again (that inner run reads a cleared store, so it cannot take
this branch again and is unfolded in place); empty result with no
`takenBefore` ⇒ the terminal no-media outcome; otherwise append the page and
stop fetching. -/
def performFetch (configError : Option String) (cat : Catalog)
    (store : Option String) : PerformFetchResult :=
  let r := fetchAssets configError cat store
  match r.result with
  | none => connectFailedResult r.store
  | some items =>
    if items.isEmpty then
      if store.isSome then
        -- localStorage.removeItem(...); performFetch(): second round with
        -- the store cleared.
        let r2 := fetchAssets configError cat none
        match r2.result with
        | none => connectFailedResult r2.store
        | some items2 =>
          if items2.isEmpty then noMediaResult r2.store
          else
            { error := none, loadingCleared := false, isFetchingAfter := false
              retryScheduled := false, appended := items2, store := r2.store }
      else noMediaResult r.store
    else
      { error := none, loadingCleared := false, isFetchingAfter := false
        retryScheduled := false, appended := items, store := r.store }

/-! ## Refill triggering (`isFetching` flag)

`setIsFetching(true)` launches `performFetch` only through the effect keyed
on `isFetching` (`src/hooks/useSlideshow.ts` lines 110-146): setting the
flag to `true` while it is already `true` is an identical-state update that
React drops, so no second fetch starts.  `FetchFlag.launched` counts the
fetches actually started. -/
structure FetchFlag where
  isFetching : Bool
  launched : ℕ
deriving DecidableEq, Repr

/-- Raising the refill trigger (`setIsFetching(true)`): starts a fetch only
on a `false → true` transition. -/
def triggerRefill (f : FetchFlag) : FetchFlag :=
  if f.isFetching then f else { isFetching := true, launched := f.launched + 1 }

/-- The low-water refill effect of the page variant (`src/app/page.tsx`
lines 367-372): `if (!isFetching && playlist.length > 0 && playlist.length <
PLAYLIST_FETCH_THRESHOLD) setIsFetching(true)`. -/
def PLAYLIST_FETCH_THRESHOLD : ℕ := 5

/-- Whether the page variant's low-water effect raises the refill trigger,
as a function of the flag and the playlist length. -/
def lowWaterTriggers (isFetching : Bool) (len : ℕ) : Bool :=
  !isFetching && decide (0 < len) && decide (len < PLAYLIST_FETCH_THRESHOLD)

/-! ## Progress bar (`src/hooks/useSlideshow.ts` lines 220-242) -/

/-- The constant `DURATION = parseInt(process.env.NEXT_PUBLIC_IMAGE_DISPLAY_DURATION ||
'15000', 10)`: the static image display duration, 15000 ms by default. -/
def DURATION : ℚ := 15000

/-- The display duration used by the progress effect: `let displayDuration =
DURATION; if (currentMedia.type === 'VIDEO' && videoDuration > 0)
displayDuration = videoDuration * 1000;` where `videoDuration` is the
video's reported duration in seconds (the `videoDurationRef` value, `0` when
nothing has been reported). -/
def displayDurationFor (t : MediaType) (videoDuration : ℚ) : ℚ :=
  if t = .VIDEO ∧ 0 < videoDuration then videoDuration * 1000 else DURATION

/-- One 100 ms progress tick: `setProgress(p => Math.min(p + (100 /
(displayDuration / 100)), 100))`. -/
def progressStep (d p : ℚ) : ℚ := min (p + 100 / (d / 100)) 100

/-- Progress value after `n` ticks of the 100 ms interval, starting from the
reset value 0. -/
def progressAfter (d : ℚ) : ℕ → ℚ
  | 0 => 0
  | n + 1 => progressStep d (progressAfter d n)

/-! ## The slideshow controller (`src/hooks/useSlideshow.ts`)

The controller is embedded as a deterministic step function over an explicit
state, parameterized by a `resolver` abstracting `getAssetWithRetry`.  React
state variables become record fields; each `await preloadNextAsset(...)`
suspension point becomes a pending operation that is begun by the event that
reaches the `await` and finished by a later `preloadDone` event, exactly as
the source's continuation runs when the promise settles.  The source
installs no staleness guard and no cancellation, so `reset` leaves pending
operations in place and their continuations apply unconditionally.

`promoted` logs every value stored into `currentMedia` (`setCurrentMedia`
with a non-null media) and `released` logs every `revokeAssetUrls(media)`
call, so the resource-lifecycle claims are statements about these logs. -/

/-- Where a pending `preloadNextAsset` continuation came from: the startup
path (`startSlideshow`, whose continuation also runs `setIsLoading(false)`)
or the advance path (`advanceToNextAsset`, whose continuation also revokes
the captured outgoing media and clears `isFading`). -/
inductive PreloadOrigin where
  | start
  | advance
deriving DecidableEq, Repr

/-- An in-flight `preloadNextAsset` call: the playlist snapshot it was given
and, for the advance path, the outgoing `oldMedia` captured before the
promotion (revoked by the continuation after the preload settles). -/
structure PendingPreload where
  captured : List ImmichAsset
  oldMedia : Option MediaAsset
  origin : PreloadOrigin
deriving DecidableEq, Repr

/-- The controller state: the React state variables of `useSlideshow`, the
persisted `immich-view-taken-before` value, the queue of in-flight
`preloadNextAsset` continuations, and the promotion/release logs. -/
structure SlideState where
  playlist : List ImmichAsset
  currentMedia : Option MediaAsset
  nextMedia : Option MediaAsset
  isLoading : Bool
  isFetching : Bool
  isFading : Bool
  error : Option String
  storedDate : Option String
  pending : List PendingPreload
  promoted : List MediaAsset
  released : List MediaAsset
deriving DecidableEq, Repr

/-- Controller events.  `start` runs the body of `startSlideshow` up to its
`await preloadNextAsset` (the first asset's own resolve is folded into the
event via `resolver`); `advance` runs `advanceToNextAsset` up to the same
suspension point; `preloadDone` settles the oldest in-flight preload and
runs its continuation; `reset d` is `handleTimelineChange(d)` (`jump to
date` for `some`, `reset to latest` for `none`). -/
inductive Event where
  | start
  | advance
  | preloadDone
  | fetched (items : List ImmichAsset)
  | reset (d : Option String)
deriving DecidableEq, Repr

/-- The effect on storage of the `useEffect` that persists
`currentMedia.asset.fileCreatedAt` whenever `currentMedia` changes
(`src/hooks/useSlideshow.ts` lines 188-192): written only when present. -/
def storeDateOf (m : MediaAsset) (old : Option String) : Option String :=
  match m.asset.fileCreatedAt with
  | some d => some d
  | none => old

/-- One controller step (`src/hooks/useSlideshow.ts`).

`start` (lines 149-184): guarded by `playlist.length > 0 && isLoading &&
!isFetching`.  Shift the first descriptor and resolve it; on failure set the
error, clear `isLoading` and trigger a fetch when the remaining playlist is
empty ("Failed to load the first asset. Cannot start slideshow.") — the next
descriptor is NOT tried; on success store it as `currentMedia` and begin
`preloadNextAsset` on the rest (its continuation later runs
`setPlaylist(updated); setIsLoading(false)`).

`advance` (lines 67-96): if `nextMedia` is unset, set `isFetching` when the
playlist is empty and return.  Otherwise capture `oldMedia := currentMedia`,
fade, promote `{...nextMedia}` to `currentMedia`, and begin
`preloadNextAsset(playlist)` (its continuation runs `setPlaylist(updated)`,
then `revokeAssetUrls(oldMedia)` when non-null, then `setIsFading(false)`).

`preloadDone`: settle the oldest pending preload: `setNextMedia(result)`,
`setPlaylist(updated)`, plus the origin-specific continuation tail.

`reset d` (lines 246-261): write/remove the stored date, clear the playlist
and both media slots, re-enter loading and trigger a fetch.  No
`revokeAssetUrls` call is made and the pending queue is untouched (the
source has no cancellation). -/
def step (resolver : ImmichAsset → Option MediaAsset) (e : Event)
    (s : SlideState) : SlideState :=
  match e with
  | .start =>
    if s.playlist ≠ [] ∧ s.isLoading ∧ ¬ s.isFetching then
      match s.playlist with
      | [] => s
      | first :: rest =>
        match resolver first with
        | none =>
          { s with
              error := some "Failed to load the first asset. Cannot start slideshow."
              isLoading := false
              isFetching := s.isFetching || rest.isEmpty }
        | some m =>
          { s with
              currentMedia := some m
              promoted := s.promoted ++ [m]
              storedDate := storeDateOf m s.storedDate
              pending := s.pending ++ [{ captured := rest, oldMedia := none, origin := .start }] }
    else s
  | .advance =>
    match s.nextMedia with
    | none =>
      if s.playlist = [] then { s with isFetching := true } else s
    | some nm =>
      { s with
          isFading := true
          currentMedia := some nm
          promoted := s.promoted ++ [nm]
          storedDate := storeDateOf nm s.storedDate
          pending := s.pending ++
            [{ captured := s.playlist, oldMedia := s.currentMedia, origin := .advance }] }
  | .preloadDone =>
    match s.pending with
    | [] => s
    | p :: ps =>
      let r := preloadNextAsset resolver p.captured
      { s with
          pending := ps
          nextMedia := r.1
          playlist := r.2
          released := s.released ++ p.oldMedia.toList
          isLoading := if p.origin = .start then false else s.isLoading
          isFading := if p.origin = .advance then false else s.isFading }
  | .fetched items =>
    -- Success branch of `performFetch` (lines 113-142): `setError(null)` at
    -- entry, `setPlaylist(current => [...current, ...newAssets])`,
    -- `setIsFetching(false)`.
    { s with
        error := none
        playlist := s.playlist ++ items
        isFetching := false }
  | .reset d =>
    { s with
        storedDate := d
        playlist := []
        currentMedia := none
        nextMedia := none
        isLoading := true
        isFetching := true }

/-- Run a sequence of controller events from a state. -/
def run (resolver : ImmichAsset → Option MediaAsset) (s : SlideState)
    (es : List Event) : SlideState :=
  es.foldl (fun t e => step resolver e t) s

/-- The controller's initial state: empty playlist, no media, loading, with
the stored date restored from persistence. -/
def initState (stored : Option String) : SlideState :=
  { playlist := [], currentMedia := none, nextMedia := none
    isLoading := true, isFetching := false, isFading := false
    error := none, storedDate := stored
    pending := [], promoted := [], released := [] }

/-! ## Concrete fixtures used by the witnesses and counterexamples -/

/-- A sample IMAGE descriptor. -/
def asset1 : ImmichAsset := { id := "a1", type := .IMAGE, fileCreatedAt := some "2024-01-02T00:00:00Z" }

/-- A second sample IMAGE descriptor. -/
def asset2 : ImmichAsset := { id := "a2", type := .IMAGE, fileCreatedAt := some "2024-01-01T00:00:00Z" }

/-- A sample VIDEO descriptor. -/
def videoAsset : ImmichAsset := { id := "v1", type := .VIDEO, fileCreatedAt := none }

/-- An environment in which every asset fetch succeeds, yielding a blob URL
derived from the request URL. -/
def okEnv : FetchEnv := { apiKey := true, fetch := fun u => some ("blob:" ++ u) }

/-- An environment in which every asset fetch fails. -/
def failEnv : FetchEnv := { apiKey := true, fetch := fun _ => none }

/-- An environment in which only the `original` variant of `videoAsset`
succeeds (its preview half fails). -/
def halfEnv : FetchEnv :=
  { apiKey := true
    fetch := fun u => if u = originalRequestUrl videoAsset then some "blob:orig-v1" else none }

/-- The resolver abstraction of `getAssetWithRetry` with the source's
default budget (`retries = 1`), in the all-success environment. -/
def okResolver (a : ImmichAsset) : Option MediaAsset :=
  (getAssetWithRetry (fun _ => okEnv) a 1).result

/-- The `MediaAsset` produced for `asset1` in `okEnv` (the preview blob URL
serves as both handles for an IMAGE). -/
def media1 : MediaAsset :=
  { id := "a1", type := .IMAGE
    url := "blob:/api/immich/assets/a1/thumbnail?size=preview"
    previewUrl := "blob:/api/immich/assets/a1/thumbnail?size=preview"
    asset := asset1 }

/-- The `MediaAsset` produced for `asset2` in `okEnv`. -/
def media2 : MediaAsset :=
  { id := "a2", type := .IMAGE
    url := "blob:/api/immich/assets/a2/thumbnail?size=preview"
    previewUrl := "blob:/api/immich/assets/a2/thumbnail?size=preview"
    asset := asset2 }

/-- A resolver that fails on `asset1` and succeeds on `asset2` (used for the
startup skip-and-continue scenario). -/
def failFirstResolver (a : ImmichAsset) : Option MediaAsset :=
  if a.id = "a2" then some media2 else none

/-- A catalog whose every page is empty (no media matching the filters). -/
def emptyCatalog : Catalog := { pages := fun _ => some [] }

/-- A catalog that is exhausted at every non-null cursor but returns one
asset at the null cursor (the wrap-around scenario). -/
def wrapCatalog : Catalog :=
  { pages := fun o => match o with
      | some _ => some []
      | none => some [asset1] }

/-! ## Supporting lemmas -/

/-- Every level of `getAssetWithRetryGo` on an always-failing environment:
no result, `retries + 1` attempts, `retries` constant delays. -/
theorem getAssetWithRetryGo_allFail (envs : ℕ → FetchEnv) (a : ImmichAsset)
    (hfail : ∀ i, (resolveAttempt (envs i) a).result = none) :
    ∀ retries idx,
      (getAssetWithRetryGo envs a idx retries).result = none ∧
      (getAssetWithRetryGo envs a idx retries).attempts = retries + 1 ∧
      (getAssetWithRetryGo envs a idx retries).delays = List.replicate retries RETRY_DELAY := by
  intro retries
  induction retries with
  | zero =>
    intro idx
    simp [getAssetWithRetryGo, hfail idx, List.replicate]
  | succ k ih =>
    intro idx
    have h := hfail idx
    obtain ⟨h1, h2, h3⟩ := ih (idx + 1)
    simp [getAssetWithRetryGo, h, h1, h2, h3, List.replicate] <;> omega

/-- A failing descriptor at the head of the playlist is skipped by
`preloadNextAsset` and not re-queued. -/
theorem preloadNextAsset_skip (resolver : ImmichAsset → Option MediaAsset)
    (a : ImmichAsset) (rest : List ImmichAsset) (h : resolver a = none) :
    preloadNextAsset resolver (a :: rest) = preloadNextAsset resolver rest := by
  simp only [preloadNextAsset, h]

/-- Resolver abstraction of `getAssetWithRetry` with the default budget in
the always-failing environment (used by the C3 witness). -/
def failResolver (a : ImmichAsset) : Option MediaAsset :=
  (getAssetWithRetry (fun _ => failEnv) a 1).result

/-- Claim C3: if every single resolve attempt for a descriptor fails, then
`getAssetWithRetry` with retry budget `k` performs exactly `k + 1` resolve
attempts with the fixed constant delay `RETRY_DELAY` between attempts and
returns a load failure; the caller (`preloadNextAsset`) then skips that
descriptor permanently — it is not re-queued — and tries the next
descriptor (no fatal state is involved on this path). -/
theorem C3_retry_bound (envs : ℕ → FetchEnv) (a : ImmichAsset) (k : ℕ)
    (resolver : ImmichAsset → Option MediaAsset) (rest : List ImmichAsset)
    (hfail : ∀ i, (resolveAttempt (envs i) a).result = none)
    (hres : resolver a = none) :
    (getAssetWithRetry envs a k).result = none ∧
    (getAssetWithRetry envs a k).attempts = k + 1 ∧
    (getAssetWithRetry envs a k).delays = List.replicate k RETRY_DELAY ∧
    preloadNextAsset resolver (a :: rest) = preloadNextAsset resolver rest := by
  obtain ⟨h1, h2, h3⟩ := getAssetWithRetryGo_allFail envs a hfail k 0
  exact ⟨h1, h2, h3, preloadNextAsset_skip resolver a rest hres⟩

/-- Witness for C3, at the always-failing environment with budget 2: three
attempts, two constant delays, failure result, and the head descriptor
skipped without being re-queued. -/
theorem C3_retry_bound_witness :
    (getAssetWithRetry (fun _ => failEnv) asset1 2).result = none ∧
    (getAssetWithRetry (fun _ => failEnv) asset1 2).attempts = 2 + 1 ∧
    (getAssetWithRetry (fun _ => failEnv) asset1 2).delays = List.replicate 2 RETRY_DELAY ∧
    preloadNextAsset failResolver (asset1 :: [asset2]) = preloadNextAsset failResolver [asset2] :=
  C3_retry_bound (fun _ => failEnv) asset1 2 failResolver [asset2] (fun _ => rfl) rfl

/-- Claim C10: the catalog fetch's result is independent of the cursor
argument supplied at the call site — `fetchAssets` declares no parameter and
reads the persisted cursor from storage itself, so any two argument values
yield the same outcome on the same persisted cursor and catalog. -/
theorem C10_cursor_argument_ignored (configError : Option String) (cat : Catalog)
    (a b store : Option String) :
    fetchAssetsCalledWith configError cat a store =
      fetchAssetsCalledWith configError cat b store := rfl

/-- Claim C4: when a refill returns an empty page with a non-null persisted
cursor, `fetchAssets` resets the cursor to null and immediately refetches
(wrap-around: the query log shows the second request at the null cursor, and
the non-empty wrap-around page is appended with the cursor left reset);
when the page is empty with the cursor already null, `performFetch` reports
the terminal no-media condition — error banner set, `isLoading` and
`isFetching` cleared, no retry scheduled. -/
theorem C4_empty_page_policy (catA catB : Catalog) (c : String)
    (items : List ImmichAsset)
    (hA : catA.pages (some c) = some [])
    (hA2 : catA.pages none = some items)
    (hne : items ≠ [])
    (hB : catB.pages none = some []) :
    fetchAssets none catA (some c) =
      { result := some items, store := none, queried := [some c, none] } ∧
    performFetch none catA (some c) =
      { error := none, loadingCleared := false, isFetchingAfter := false
        retryScheduled := false, appended := items, store := none } ∧
    performFetch none catB none = noMediaResult none := by
  have hfa : fetchAssets none catA (some c) =
      { result := some items, store := none, queried := [some c, none] } := by
    simp [fetchAssets, hA, hA2]
  have hne' : items.isEmpty = false := by
    cases items with
    | nil => exact absurd rfl hne
    | cons x xs => rfl
  refine ⟨hfa, ?_, ?_⟩
  · simp [performFetch, hfa, hne']
  · simp [performFetch, fetchAssets, hB]

/-- Witness for C4: a catalog whose every non-null page is empty but whose
null-cursor page holds one asset (wrap-around case), and the everywhere-empty
catalog (terminal no-media case). -/
theorem C4_empty_page_policy_witness :
    fetchAssets none wrapCatalog (some "2024-06-01T00:00:00Z") =
      { result := some [asset1], store := none
        queried := [some "2024-06-01T00:00:00Z", none] } ∧
    performFetch none wrapCatalog (some "2024-06-01T00:00:00Z") =
      { error := none, loadingCleared := false, isFetchingAfter := false
        retryScheduled := false, appended := [asset1], store := none } ∧
    performFetch none emptyCatalog none = noMediaResult none :=
  C4_empty_page_policy wrapCatalog emptyCatalog "2024-06-01T00:00:00Z" [asset1]
    rfl rfl (by simp) rfl

/-! ## Progress-bar arithmetic -/

/-- Closed form of the capped progress accumulation: after `n` ticks the
progress is the cap-free linear value clipped at 100. -/
theorem progressAfter_closed (d : ℚ) (hd : 0 < d) (n : ℕ) :
    progressAfter d n = min ((n : ℚ) * (100 / (d / 100))) 100 := by
  have hc : 0 < 100 / (d / 100) := by positivity
  induction n with
  | zero => simp [progressAfter]
  | succ m ih =>
    rw [progressAfter, ih, progressStep]
    rcases le_total ((m : ℚ) * (100 / (d / 100))) 100 with h | h
    · rw [min_eq_left h]
      congr 1
      push_cast
      ring
    · rw [min_eq_right h, min_eq_right (by linarith), min_eq_right]
      have : (m : ℚ) * (100 / (d / 100)) ≤ (m + 1 : ℚ) * (100 / (d / 100)) := by nlinarith
      push_cast
      nlinarith

/-- Claim C8: for a current VIDEO whose reported duration `d` (seconds) is
positive, the progress effect derives the display duration as `d * 1000`
milliseconds, and the progress reaches 100% exactly when the elapsed tick
time `n * 100` ms has reached `d * 1000` ms — not at the static image
duration; when the reported duration is unavailable or non-positive
(`dbad ≤ 0`, with 0 the unset `videoDurationRef` default), the static
`DURATION` is used as the fallback. -/
theorem C8_video_progress (d dbad : ℚ) (n : ℕ) (hd : 0 < d) (hbad : dbad ≤ 0) :
    displayDurationFor .VIDEO d = d * 1000 ∧
    (progressAfter (displayDurationFor .VIDEO d) n = 100 ↔ d * 1000 ≤ (n : ℚ) * 100) ∧
    displayDurationFor .VIDEO dbad = DURATION := by
  have hdisp : displayDurationFor .VIDEO d = d * 1000 := by
    rw [displayDurationFor, if_pos ⟨rfl, hd⟩]
  have hD : (0 : ℚ) < d * 1000 := by linarith
  refine ⟨hdisp, ?_, ?_⟩
  · rw [hdisp, progressAfter_closed (d * 1000) hD n, min_eq_right_iff]
    rw [show (100 : ℚ) / (d * 1000 / 100) = 10000 / (d * 1000) by
      rw [div_div_eq_mul_div]; norm_num]
    rw [← mul_div_assoc, le_div_iff₀ hD]
    constructor
    · intro h
      nlinarith
    · intro h
      nlinarith
  · rw [displayDurationFor, if_neg]
    rintro ⟨-, h⟩
    exact absurd h (not_lt.mpr hbad)

/-- Witness for C8 at the spec's scenario: a VIDEO reporting 9.5 s reaches
100% exactly when 9500 ms of ticks have elapsed (not at the static 15000 ms),
and a non-positive reported duration falls back to `DURATION`. -/
theorem C8_video_progress_witness :
    displayDurationFor .VIDEO ((19 : ℚ) / 2) = (19 : ℚ) / 2 * 1000 ∧
    (progressAfter (displayDurationFor .VIDEO ((19 : ℚ) / 2)) 95 = 100 ↔
      (19 : ℚ) / 2 * 1000 ≤ (95 : ℚ) * 100) ∧
    displayDurationFor .VIDEO 0 = DURATION :=
  C8_video_progress ((19 : ℚ) / 2) 0 95 (by norm_num) le_rfl

/-! ## Lifecycle and reset claims (controller traces) -/

/-- The controller trace for the reset leak: one asset is fetched, the
startup promotes it to `currentMedia`, the user resets the timeline, and the
startup's in-flight preload then settles (on the empty captured playlist). -/
def leakTrace : List Event := [.fetched [asset1], .start, .reset none, .preloadDone]

/-- Claim C1 (code bug, evaluated at the failing input): after the trace
`fetched [asset1]; start; reset; preloadDone`, exactly one resource was ever
promoted to `currentMedia`, yet the release log is empty, the pending queue
is drained and both slots are cleared — `handleTimelineChange` nulls
`currentMedia`/`nextMedia` without calling `revokeAssetUrls`, so the
promoted resource's blob URLs are never revoked (a leak), refuting the
exactly-once release property for sequences that include a user reset. -/
theorem C1_release_leak_on_reset :
    (run okResolver (initState none) leakTrace).promoted = [media1] ∧
    (run okResolver (initState none) leakTrace).released = [] ∧
    (run okResolver (initState none) leakTrace).pending = [] ∧
    (run okResolver (initState none) leakTrace).currentMedia = none ∧
    (run okResolver (initState none) leakTrace).nextMedia = none := by
  refine ⟨?_, ?_, ?_, ?_, ?_⟩ <;> rfl

/-- The controller trace for the stale-resolve scenario: two assets fetched,
startup promotes the first and leaves a preload of the second in flight,
then the user resets the timeline. -/
def staleTrace : List Event := [.fetched [asset1, asset2], .start, .reset none]

/-- Claim C2 (code bug, evaluated at the failing input): immediately after
the reset both media slots are cleared, but when the pre-reset in-flight
preload then settles, its continuation stores its result into `nextMedia`
unconditionally — the source has no staleness guard — so the post-reset
state IS affected by a resolve begun before the reset, refuting the
discard-on-completion property. -/
theorem C2_stale_resolve_lands_after_reset :
    (run okResolver (initState none) staleTrace).nextMedia = none ∧
    (run okResolver (initState none) staleTrace).currentMedia = none ∧
    (step okResolver .preloadDone (run okResolver (initState none) staleTrace)).nextMedia
      = some media2 := by
  refine ⟨?_, ?_, ?_⟩ <;> rfl

/-! ## Startup failure handling (claim C5) -/

/-- The controller state right before startup in the C5 scenario: a
two-element playlist whose first descriptor will fail to resolve. -/
def c5State : SlideState :=
  run failFirstResolver (initState none) [.fetched [asset1, asset2]]

/-- Counterexample to claim C5 as stated: with playlist `[asset1, asset2]`
where `asset1` fails its retry budget and `asset2` would resolve fine, the
startup does not skip to `asset2`: it leaves `currentMedia` unset, stores
the error "Failed to load the first asset. Cannot start slideshow.", clears
`isLoading`, and a further start event is a no-op (the startup effect only
runs while `isLoading` holds). -/
theorem C5_counterexample :
    (step failFirstResolver .start c5State).currentMedia = none ∧
    (step failFirstResolver .start c5State).error =
      some "Failed to load the first asset. Cannot start slideshow." ∧
    (step failFirstResolver .start c5State).isLoading = false ∧
    step failFirstResolver .start (step failFirstResolver .start c5State) =
      step failFirstResolver .start c5State := by
  refine ⟨?_, ?_, ?_, ?_⟩ <;> rfl

/-- Claim C5 as amended: on startup, when resolving the first available
descriptor fails after its retry budget, the controller does not try the
next descriptor — it sets the startup error, leaves the loading state
(`isLoading := false`), and triggers a catalog refetch only when the
remaining playlist is empty. -/
theorem C5_start_failure_stops (resolver : ImmichAsset → Option MediaAsset)
    (s : SlideState) (first : ImmichAsset) (rest : List ImmichAsset)
    (h1 : s.playlist = first :: rest) (h2 : s.isLoading = true)
    (h3 : s.isFetching = false) (h4 : resolver first = none) :
    step resolver .start s =
      { s with
          error := some "Failed to load the first asset. Cannot start slideshow."
          isLoading := false
          isFetching := rest.isEmpty } := by
  simp [step, h1, h2, h3, h4]

/-- Witness for the amended C5 at the concrete startup state. -/
theorem C5_start_failure_stops_witness :
    step failFirstResolver .start c5State =
      { c5State with
          error := some "Failed to load the first asset. Cannot start slideshow."
          isLoading := false
          isFetching := [asset2].isEmpty } :=
  C5_start_failure_stops failFirstResolver c5State asset1 [asset2] rfl rfl rfl rfl

/-! ## Partial-resource release on failed resolves (claim C6) -/

/-- Counterexample to claim C6 as stated: for a VIDEO whose `original` half
downloads (blob URL created) while the `preview` half fails, the resolve
returns a load failure yet the created blob URL is not released — it merely
sits in the write-only `urlsToRevoke` tracking list, and the failure result
carries no handle through which any later code could revoke it. -/
theorem C6_counterexample :
    (getAssetWithRetry (fun _ => halfEnv) videoAsset 0).result = none ∧
    (getAssetWithRetry (fun _ => halfEnv) videoAsset 0).created = ["blob:orig-v1"] := by
  exact ⟨rfl, rfl⟩

/-- Claim C6 as amended: whenever one half of a VIDEO's primary/preview pair
fails to download, the attempt returns a load failure, but the
already-downloaded half is NOT released before the error is returned: its
blob URL remains among the created resources (the source only appends it to
the never-consumed `urlsToRevoke` list). -/
theorem C6_partial_half_not_released (env : FetchEnv) (a : ImmichAsset) (u : String)
    (ht : a.type = .VIDEO) (hk : env.apiKey = true)
    (ho : env.fetch (originalRequestUrl a) = some u)
    (hp : env.fetch (previewRequestUrl a) = none) :
    (resolveAttempt env a).result = none ∧
    (resolveAttempt env a).created = [u] := by
  simp [resolveAttempt, ht, getAssetUrl, hk, ho, hp]

/-- Witness for the amended C6 in the half-failing environment. -/
theorem C6_partial_half_not_released_witness :
    (resolveAttempt halfEnv videoAsset).result = none ∧
    (resolveAttempt halfEnv videoAsset).created = ["blob:orig-v1"] :=
  C6_partial_half_not_released halfEnv videoAsset "blob:orig-v1" rfl rfl rfl
    (by simp [halfEnv, previewRequestUrl, originalRequestUrl, videoAsset])

/-! ## IMAGE resolve shape (claim C7) -/

/-- Counterexample to claim C7 as stated: for an IMAGE descriptor in an
environment where both variants would download fine, a resolve attempt
requests only the preview thumbnail — the full-resolution original is never
fetched — and the resulting resource's primary handle equals its preview
handle instead of being a distinct full-resolution URL. -/
theorem C7_counterexample :
    (resolveAttempt okEnv asset1).requested = [previewRequestUrl asset1] ∧
    originalRequestUrl asset1 ∉ (resolveAttempt okEnv asset1).requested ∧
    (resolveAttempt okEnv asset1).result = some media1 ∧
    media1.url = media1.previewUrl := by
  refine ⟨rfl, ?_, rfl, rfl⟩
  decide

/-- Claim C7 as amended: for every IMAGE descriptor, a single resolve
attempt fetches only the lower-resolution preview thumbnail, and a
successful resolve yields a resource whose primary playback handle and
preview handle are both that same preview URL ("Use preview for both to
ensure compatibility"). -/
theorem C7_image_resolve_preview_only (env : FetchEnv) (a : ImmichAsset) (pu : String)
    (ht : a.type = .IMAGE) (hk : env.apiKey = true)
    (hp : env.fetch (previewRequestUrl a) = some pu) :
    resolveAttempt env a =
      { result := some { id := a.id, type := a.type, url := pu, previewUrl := pu, asset := a }
        requested := [previewRequestUrl a]
        created := [pu] } := by
  simp [resolveAttempt, ht, getAssetUrl, hk, hp]

/-- Witness for the amended C7 at a concrete IMAGE asset. -/
theorem C7_image_resolve_preview_only_witness :
    resolveAttempt okEnv asset2 =
      { result := some
          { id := asset2.id, type := asset2.type
            url := "blob:/api/immich/assets/a2/thumbnail?size=preview"
            previewUrl := "blob:/api/immich/assets/a2/thumbnail?size=preview"
            asset := asset2 }
        requested := [previewRequestUrl asset2]
        created := ["blob:/api/immich/assets/a2/thumbnail?size=preview"] } :=
  C7_image_resolve_preview_only okEnv asset2
    "blob:/api/immich/assets/a2/thumbnail?size=preview" rfl rfl rfl

/-! ## Refill triggering discipline (claim C9) -/

/-- Counterexample to claim C9 as stated: with a non-empty playlist of
length 3 (below the low-water threshold 5) the page variant's low-water
effect DOES raise the refill trigger, and the trigger launches a catalog
fetch — so a refill with a non-empty playlist is not a no-op. -/
theorem C9_counterexample :
    lowWaterTriggers false 3 = true ∧
    (triggerRefill { isFetching := false, launched := 0 }).launched = 1 := by
  exact ⟨rfl, rfl⟩

/-- Claim C9 as amended: the advance path raises a refill only when the
playlist is empty (with a non-empty playlist and no next media, advance
changes nothing); the low-water effect is silent once the playlist length
reaches the threshold 5; and at most one refill is in flight — raising the
trigger while `isFetching` already holds changes nothing (launches no second
fetch), and the trigger is idempotent. -/
theorem C9_refill_discipline (resolver : ImmichAsset → Option MediaAsset)
    (s : SlideState) (b : Bool) (len : ℕ) (f g : FetchFlag)
    (hn : s.nextMedia = none) (hp : s.playlist ≠ [])
    (hlen : PLAYLIST_FETCH_THRESHOLD ≤ len) (hf : f.isFetching = true) :
    step resolver .advance s = s ∧
    lowWaterTriggers b len = false ∧
    triggerRefill f = f ∧
    triggerRefill (triggerRefill g) = triggerRefill g := by
  have hlen' : ¬ len < PLAYLIST_FETCH_THRESHOLD := not_lt.mpr hlen
  refine ⟨?_, ?_, ?_, ?_⟩
  · simp [step, hn, hp]
  · simp [lowWaterTriggers, hlen']
  · simp [triggerRefill, hf]
  · by_cases hg : g.isFetching <;> simp [triggerRefill, hg]

/-- Witness for the amended C9 at a concrete state with a non-empty
playlist, the threshold length, an in-flight flag and an idle flag. -/
theorem C9_refill_discipline_witness :
    step okResolver .advance c5State = c5State ∧
    lowWaterTriggers false 5 = false ∧
    triggerRefill { isFetching := true, launched := 1 } = { isFetching := true, launched := 1 } ∧
    triggerRefill (triggerRefill { isFetching := false, launched := 0 }) =
      triggerRefill { isFetching := false, launched := 0 } :=
  C9_refill_discipline okResolver c5State false 5
    { isFetching := true, launched := 1 } { isFetching := false, launched := 0 }
    rfl (by decide) (by decide) rfl

end ImmichFrame
